import Mathlib

set_option maxHeartbeats 1000000

/-
Shallow embedding of the nodo_gateway core: the BLE device worker
(src/gateway/bluno/bluno.py) and the serial command bridge
(src/gateway/bridge.py), together with the record dataclasses
(src/gateway/models.py). Bytes of the serial/BLE traffic are modelled as
`Char` (the traffic is ASCII, where `decode("utf-8", errors="ignore")` is
the identity); wall-clock behaviour is made explicit by passing the
outcomes of blocking calls (`queue.get`, `json.loads`, serial reads) as
arguments.
-/

/-- Python whitespace as recognised by `str.strip()`: space, tab, LF, CR,
vertical tab and form feed. -/
def pyIsSpace (c : Char) : Bool :=
  c = ' ' || c = '\t' || c = '\n' || c = '\r' || c = Char.ofNat 11 || c = Char.ofNat 12

/-- Python `str.strip()` on a decoded character list: drop leading and
trailing whitespace. -/
def pyStrip (l : List Char) : List Char :=
  ((l.dropWhile pyIsSpace).reverse.dropWhile pyIsSpace).reverse

/-- The opening brace character, written by code point to keep it out of
string literals. -/
def lbrace : Char := Char.ofNat 123

/-- The closing brace character. -/
def rbrace : Char := Char.ofNat 125

/- ------------------------------------------------------------------
C4: line reassembly (`_LineDelegate`, src/gateway/bluno/bluno.py:34-51)
------------------------------------------------------------------- -/

/-- The `while True: nl = self._buf.find(b"\n") ...` loop of
`_LineDelegate.handleNotification` cuts the buffer at every newline it
contains.  `splitNl b` returns the segments standing before each newline
(the candidate lines, in arrival order) and the residue after the last
newline, which stays in the buffer. -/
def splitNl : List Char → List (List Char) × List Char
  | [] => ([], [])
  | c :: cs =>
    if c = '\n' then
      ([] :: (splitNl cs).1, (splitNl cs).2)
    else
      match splitNl cs with
      | ([], r) => ([], c :: r)
      | (l :: ls, r) => ((c :: l) :: ls, r)

/-- State of a `_LineDelegate`: the accumulated buffer `self._buf`. -/
structure LineDelegate where
  buf : List Char
  deriving DecidableEq

/-- `_LineDelegate.handleNotification` (src/gateway/bluno/bluno.py:42-51):
extend the buffer with the chunk, emit every complete line — `strip()`ped,
empty lines discarded by `if line:` — and keep the residue buffered.
Returns the lines handed to the `on_line` callback, in order. -/
def handleNotification (st : LineDelegate) (data : List Char) :
    List (List Char) × LineDelegate :=
  let b := st.buf ++ data
  (((splitNl b).1.map pyStrip).filter (fun l => l ≠ []), ⟨(splitNl b).2⟩)

/-- Drive a fresh delegate over a sequence of notification chunks,
collecting every emitted line in order. -/
def runChunks (chunks : List (List Char)) : List (List Char) × LineDelegate :=
  chunks.foldl
    (fun acc d =>
      let r := handleNotification acc.2 d
      (acc.1 ++ r.1, r.2))
    ([], ⟨[]⟩)

/-- Drive a delegate over notification chunks from an arbitrary start:
generalisation of `runChunks` used for the induction. -/
def runChunksFrom (start : List (List Char) × LineDelegate)
    (chunks : List (List Char)) : List (List Char) × LineDelegate :=
  chunks.foldl
    (fun acc d =>
      let r := handleNotification acc.2 d
      (acc.1 ++ r.1, r.2))
    start

/-- Prepend a newline-free residue to the first complete line of a later
split; used to state how `splitNl` acts on appended buffers. -/
def consFirst (r : List Char) : List (List Char) → List (List Char)
  | [] => []
  | l :: ls => (r ++ l) :: ls

/- ------------------------------------------------------------------
C5 / C10: the bounded decode queue (`BlunoWorker._enqueue_line`,
src/gateway/bluno/bluno.py:95 and 224-234)
------------------------------------------------------------------- -/

/-- Capacity of the per-worker decode queue:
`queue.Queue(maxsize=20)` (src/gateway/bluno/bluno.py:95). -/
def qMaxsize : Nat := 20

/-- `BlunoWorker._enqueue_line` (src/gateway/bluno/bluno.py:224-234) with
the queue as the list of its elements, oldest first: `put_nowait` succeeds
while fewer than `qMaxsize` items are queued; on `queue.Full` the single
oldest item is popped (`get_nowait`) and the new one pushed.  No arm of the
source blocks or sleeps.  (With no consumer draining, the inner
`get_nowait` cannot raise, so the silent `except Exception: pass` arm is
unreachable.) -/
def enqueueLine (q : List (Nat × String)) (item : Nat × String) : List (Nat × String) :=
  if q.length < qMaxsize then q ++ [item] else q.drop 1 ++ [item]

/-- A concrete burst of `qMaxsize + 1` distinct lines. -/
def c5input : List (Nat × String) := (List.range 21).map (fun i => (i, "line"))

/- ------------------------------------------------------------------
C1 / C2 / C10: the decode task (`BlunoWorker._tx_worker`,
src/gateway/bluno/bluno.py:237-283) against the dataclasses of
src/gateway/models.py
------------------------------------------------------------------- -/

/-- Leaf values of the JSON objects the decode path manipulates.  The
decode path never looks inside the values it copies into the records, so
nested containers are not modelled. -/
inductive PyLeaf where
  | num (n : Int)
  | str (s : String)
  | boolean (b : Bool)
  | null
  deriving DecidableEq

/-- A `json.loads` result as seen by `_tx_worker`: either a dict (the only
shape `isinstance(obj, dict)` lets through to the rename) or a bare leaf. -/
inductive PyVal where
  | leaf (v : PyLeaf)
  | dict (kvs : List (String × PyLeaf))
  deriving DecidableEq

/-- The Python exceptions the decode path can raise. -/
inductive PyErr where
  | typeError
  | keyError (k : String)
  | jsonDecodeError
  deriving DecidableEq

/-- `self.field_map.get(k, k)`: dictionary lookup with the key itself as
default. -/
def fieldMapGet (fm : List (String × String)) (k : String) : String :=
  match fm.find? (fun kv => kv.1 = k) with
  | some kv => kv.2
  | none => k

/-- The key-rename comprehension
`{self.field_map.get(k, k): v for k, v in obj.items()}`
(src/gateway/bluno/bluno.py:256). -/
def renameKeys (fm : List (String × String)) (kvs : List (String × PyLeaf)) :
    List (String × PyLeaf) :=
  kvs.map (fun kv => (fieldMapGet fm kv.1, kv.2))

/-- Python subscripting `obj["k"]` with a string key: `KeyError` when the
dict lacks the key, `TypeError` when the value is not a dict at all. -/
def pySubscript (v : PyVal) (k : String) : Except PyErr PyLeaf :=
  match v with
  | .dict kvs =>
    match kvs.find? (fun kv => kv.1 = k) with
    | some kv => .ok kv.2
    | none => .error (.keyError k)
  | .leaf _ => .error .typeError

/-- Field names of `MQTTQueueItem` (src/gateway/models.py:3-14), in
declaration order.  The dataclass declares no `gas` field. -/
def mqttQueueItemFields : List String :=
  ["sensor_id", "sensor_type", "sensor_numeric_id", "temp", "hum", "pres",
   "ts_ms", "lux", "delta_g"]

/-- Fields of `MQTTQueueItem` carrying a default value. -/
def mqttQueueItemDefaulted : List String := ["lux", "delta_g"]

/-- Field names of `SQLiteDatabaseItem` (src/gateway/models.py:16-25). -/
def sqliteDatabaseItemFields : List String :=
  ["sensor_id", "temp", "hum", "pres", "ts_ms", "lux", "delta_g"]

/-- Fields of `SQLiteDatabaseItem` carrying a default value. -/
def sqliteDatabaseItemDefaulted : List String := ["lux", "delta_g"]

/-- Keyword call of a `@dataclass`-generated constructor: `TypeError` when
some keyword is not a declared field, or some non-defaulted field receives
no argument; otherwise the record is built from the keyword bindings. -/
def mkDataclass (fields defaulted : List String) (kwargs : List (String × PyLeaf)) :
    Except PyErr (List (String × PyLeaf)) :=
  if (kwargs.map Prod.fst).all (fun k => fields.contains k) &&
      fields.all (fun f => defaulted.contains f || (kwargs.map Prod.fst).contains f) then
    .ok kwargs
  else
    .error .typeError

/-- The record-building half of `_tx_worker`'s `try` block
(src/gateway/bluno/bluno.py:255-279), starting from a successfully parsed
`obj`: apply the key-rename map when `field_map` is non-empty and `obj` is
a dict, evaluate `obj["gas"]`, `obj["temp"]`, `obj["hum"]`, `obj["pres"]`
left to right, then call `MQTTQueueItem(...)` and `SQLiteDatabaseItem(...)`
with the literal keyword lists of the source.  The two unbounded queues
(`Queue()` in src/gateway/commands/run.py:55-56) make `put_nowait`
infallible, so a `.ok` result is exactly "one copy pushed onto each
queue". -/
def txBuildRecords (fm : List (String × String)) (sensorId : String)
    (obj0 : PyVal) (tsNow : Nat) :
    Except PyErr (List (String × PyLeaf) × List (String × PyLeaf)) := do
  let obj :=
    if fm ≠ [] then
      match obj0 with
      | .dict kvs => PyVal.dict (renameKeys fm kvs)
      | v => v
    else obj0
  let gas ← pySubscript obj "gas"
  let temp ← pySubscript obj "temp"
  let hum ← pySubscript obj "hum"
  let pres ← pySubscript obj "pres"
  let mqttItem ← mkDataclass mqttQueueItemFields mqttQueueItemDefaulted
    [("sensor_id", .str sensorId), ("gas", gas), ("temp", temp),
     ("hum", hum), ("pres", pres), ("ts_ms", .num (Int.ofNat tsNow))]
  let dbItem ← mkDataclass sqliteDatabaseItemFields sqliteDatabaseItemDefaulted
    [("sensor_id", .str sensorId), ("gas", gas), ("temp", temp),
     ("hum", hum), ("pres", pres), ("ts_ms", .num (Int.ofNat tsNow))]
  pure (mqttItem, dbItem)

/-- Outcome of one iteration of `_tx_worker`'s `while` loop. -/
inductive TxIter where
  | exitLoop
  | looped (mqttPush dbPush : Option (List (String × PyLeaf)))
  | raised (e : PyErr)
  deriving DecidableEq

/-- One iteration of `BlunoWorker._tx_worker` (src/gateway/bluno/bluno.py:
243-283) in `parse == "json"` mode.  `stopSet` is `stop_evt.is_set()` at
the loop head; `item` is the outcome of `self._q.get(timeout=1.0)` (`none`
models `queue.Empty`); `loads line` is the result of `json.loads(line)`
(`.error .jsonDecodeError` models the raise); `tsNow` is the `now_ms()`
value used for the records.  Only `json.JSONDecodeError` is caught by the
`except` arm; any other exception escapes the loop and ends the thread
(`.raised`). -/
def txWorkerIter (fm : List (String × String)) (sensorId : String)
    (stopSet : Bool) (item : Option (Nat × String))
    (loads : String → Except PyErr PyVal) (tsNow : Nat) : TxIter :=
  if stopSet then .exitLoop
  else
    match item with
    | none => .looped none none
    | some (_, line) =>
      if line = "__STOP__" then .exitLoop
      else
        match (do
          let obj0 ← loads line
          txBuildRecords fm sensorId obj0 tsNow : Except PyErr _) with
        | .ok r => .looped (some r.1) (some r.2)
        | .error .jsonDecodeError => .looped none none
        | .error e => .raised e

/-- Outcome of one iteration of `BlunoWorker.run`'s reconnect loop. -/
inductive RunIter where
  | exitLoop
  | retryAfterCleanup
  | raised (e : PyErr)
  deriving DecidableEq

/-- One iteration of the `while not self.stop_evt.is_set():` loop of
`BlunoWorker.run` (src/gateway/bluno/bluno.py:118-134).  `bodyRes` is the
outcome of `self._connect_to_ble(); self._loop_notifications()` — `.ok`
means `_loop_notifications` returned because the stop event was observed,
any exception is `.error`.  Both `except` arms (BTLE errors and the
catch-all `except Exception`) log and fall through to cleanup, so no
exception escapes; `stopAfter` is `stop_evt.is_set()` at the re-check after
cleanup. -/
def runLoopIter (stopSet : Bool) (bodyRes : Except PyErr Unit) (stopAfter : Bool) :
    RunIter :=
  if stopSet then .exitLoop
  else
    match bodyRes with
    | .ok _ => .exitLoop
    | .error _ => if stopAfter then .exitLoop else .retryAfterCleanup

/- ------------------------------------------------------------------
C3: the locate/GPS protocol (`ArduinoBridge._do_gps`,
src/gateway/bridge.py:320-338)
------------------------------------------------------------------- -/

/-- Python `str.rfind`: index of the last occurrence of `c` in `l`, `none`
standing for the -1 of the source. -/
def rfindIdx (l : List Char) (c : Char) : Option Nat :=
  match l.reverse.findIdx? (fun x => x = c) with
  | some i => some (l.length - 1 - i)
  | none => none

/-- `"\n".join(text_chunks)` on character lists. -/
def joinNl (ls : List (List Char)) : List Char :=
  (ls.intersperse ['\n']).flatten

/-- The joined, stripped accumulated text
`txt = "\\n".join(text_chunks).strip()` (src/gateway/bridge.py:331). -/
def gpsTxt (chunks : List (List Char)) : List Char :=
  pyStrip (joinNl chunks)

/-- `i0, i1 = txt.rfind("..."), txt.rfind("...")` on the two braces followed
by the guard `i0 != -1 and i1 != -1 and i1 > i0`
(src/gateway/bridge.py:332-333): the candidate span `txt[i0:i1 + 1]` when
the guard holds, `none` when it does not. -/
def gpsSpan (chunks : List (List Char)) : Option (List Char) :=
  match rfindIdx (gpsTxt chunks) lbrace, rfindIdx (gpsTxt chunks) rbrace with
  | some i0, some i1 =>
    if i0 < i1 then some (((gpsTxt chunks).drop i0).take (i1 + 1 - i0)) else none
  | some _, none => none
  | none, _ => none

/-- The read loop of `ArduinoBridge._do_gps` (src/gateway/bridge.py:323-338)
with the sequence of lines the serial port yields before the 4 s deadline
made explicit and `json.loads` a parameter (`loads s = none` models the
parse raising).  Mirrors the source: a falsy (empty) line is skipped
(`if not line: continue`); every other line is appended to `text_chunks`;
as soon as the brace-span guard holds the single parse attempt decides the
call — success returns the value, failure hits
`except Exception: return None`.  Exhausting the list models deadline
expiry. -/
def doGpsAux {J : Type} (loads : List Char → Option J) :
    List (List Char) → List (List Char) → Option J
  | [], _ => none
  | line :: rest, chunks =>
    if line = [] then doGpsAux loads rest chunks
    else
      match gpsSpan (chunks ++ [line]) with
      | some span =>
        match loads span with
        | some v => some v
        | none => none
      | none => doGpsAux loads rest (chunks ++ [line])

/-- `ArduinoBridge._do_gps` from an empty accumulation. -/
def doGps {J : Type} (loads : List Char → Option J) (lines : List (List Char)) :
    Option J :=
  doGpsAux loads lines []

/-- Modelled from the spec: the locate loop as the specification words it —
"a failed parse attempt does not terminate the read loop", only deadline
expiry does.  Identical to `doGpsAux` except for the failed-parse arm,
which keeps reading. -/
def doGpsSpecAux {J : Type} (loads : List Char → Option J) :
    List (List Char) → List (List Char) → Option J
  | [], _ => none
  | line :: rest, chunks =>
    if line = [] then doGpsSpecAux loads rest chunks
    else
      match gpsSpan (chunks ++ [line]) with
      | some span =>
        match loads span with
        | some v => some v
        | none => doGpsSpecAux loads rest (chunks ++ [line])
      | none => doGpsSpecAux loads rest (chunks ++ [line])

/-- The spec-worded locate loop from an empty accumulation. -/
def doGpsSpecContinue {J : Type} (loads : List Char → Option J)
    (lines : List (List Char)) : Option J :=
  doGpsSpecAux loads lines []

/-- The first parse attempt `_do_gps` ever makes: scanning the non-empty
lines in order, the first accumulated text passing the brace-span guard
yields `some (parse outcome)`; `none` when the lines run out with no
attempt ever made. -/
def firstGpsAttempt {J : Type} (loads : List Char → Option J) :
    List (List Char) → List (List Char) → Option (Option J)
  | [], _ => none
  | line :: rest, chunks =>
    if line = [] then firstGpsAttempt loads rest chunks
    else
      match gpsSpan (chunks ++ [line]) with
      | some span => some (loads span)
      | none => firstGpsAttempt loads rest (chunks ++ [line])

/- A small honest JSON parser for the flat string-to-integer objects the
location reply uses, standing in for `json.loads` in concrete
evaluations. -/

/-- Skip leading whitespace. -/
def skipWs : List Char → List Char
  | [] => []
  | c :: cs => if pyIsSpace c then skipWs cs else c :: cs

/-- Read the body of a double-quoted string (no escapes), returning it and
the rest after the closing quote. -/
def takeStr : List Char → Option (String × List Char)
  | [] => none
  | c :: cs =>
    if c = '"' then some ("", cs)
    else
      match takeStr cs with
      | some (s, r) => some (String.mk (c :: s.data), r)
      | none => none

/-- Longest digit-prefix of the input and the rest. -/
def takeDigits : List Char → List Char × List Char
  | [] => ([], [])
  | c :: cs =>
    if c.isDigit then
      let (d, r) := takeDigits cs
      (c :: d, r)
    else ([], c :: cs)

/-- Digits to a natural number. -/
def digitsToNat (l : List Char) : Nat :=
  l.foldl (fun a c => a * 10 + (c.toNat - 48)) 0

/-- Read a (possibly negative) integer literal. -/
def takeInt : List Char → Option (Int × List Char)
  | [] => none
  | c :: cs =>
    if c = '-' then
      match takeDigits cs with
      | ([], _) => none
      | (d, r) => some (-(digitsToNat d : Int), r)
    else
      match takeDigits (c :: cs) with
      | ([], _) => none
      | (d, r) => some ((digitsToNat d : Int), r)

/-- Read one `"key": int` pair. -/
def parsePair (l : List Char) : Option ((String × Int) × List Char) :=
  match skipWs l with
  | [] => none
  | c :: cs =>
    if c = '"' then
      match takeStr cs with
      | none => none
      | some (k, r1) =>
        match skipWs r1 with
        | ':' :: r2 =>
          match takeInt (skipWs r2) with
          | some (n, r3) => some ((k, n), r3)
          | none => none
        | _ => none
    else none

/-- Read a comma-separated pair sequence up to the closing brace; `fuel`
bounds the recursion by the input length. -/
def parsePairs : Nat → List Char → Option (List (String × Int) × List Char)
  | 0, _ => none
  | fuel + 1, l =>
    match parsePair l with
    | none => none
    | some (kv, r) =>
      match skipWs r with
      | [] => none
      | c :: cs =>
        if c = ',' then
          match parsePairs fuel cs with
          | some (kvs, r2) => some (kv :: kvs, r2)
          | none => none
        else if c = rbrace then some ([kv], cs)
        else none

/-- Model of the standard library `json.loads` restricted to the flat
string-to-integer objects of the location reply; surrounding whitespace
(including the newlines `_do_gps` joins lines with) is allowed, anything
else fails the parse the way `json.loads` raises. -/
def parseLocJson (l : List Char) : Option (List (String × Int)) :=
  match skipWs l with
  | [] => none
  | c :: cs =>
    if c = lbrace then
      match skipWs cs with
      | [] => none
      | d :: ds =>
        if d = rbrace then (if skipWs ds = [] then some [] else none)
        else
          match parsePairs (cs.length + 1) cs with
          | some (kvs, r) => if skipWs r = [] then some kvs else none
          | none => none
    else none

/-- First streamed line of the C3 counterexample: an opening-to-closing
brace span that is not valid JSON. -/
def c3line1 : List Char := "\x7bbad\x7d".data

/-- Second streamed line of the C3 counterexample: a valid location
object. -/
def c3line2 : List Char := "\x7b\"lat\":1,\"lon\":2\x7d".data

/- ------------------------------------------------------------------
C6 / C7: the bridge worker retry loop and the public API
(src/gateway/bridge.py:168-215 and 239-308)
------------------------------------------------------------------- -/

/-- The six request kinds of the bridge's command queue. -/
inductive CmdKind where
  | PING
  | GPS
  | PUBLISH
  | AT
  | DIRECT
  | HEALTH
  deriving DecidableEq

/-- A reply delivered through a request's private response queue. -/
inductive BridgeReply where
  | b (x : Bool)
  | gpsObj (x : Option (List (String × Int)))
  | s (x : String)
  deriving DecidableEq

/-- Kind-specific degraded terminal reply (`# fallo final`,
src/gateway/bridge.py:293-302). -/
def degradedReply : CmdKind → BridgeReply
  | .PING => .b false
  | .GPS => .gpsObj none
  | .PUBLISH => .b false
  | .AT => .s ""
  | .DIRECT => .s ""
  | .HEALTH => .s ""

/-- What one serviced request did inside the worker: how many protocol
executions were started, how many `_recover_serial` recoveries ran, and the
reply put on the response queue. -/
structure WorkerRun where
  attemptsMade : Nat
  recoveries : Nat
  reply : BridgeReply
  deriving DecidableEq

/-- The `for attempt in range(2)` retry loop of
`ArduinoBridge._serial_worker` (src/gateway/bridge.py:269-305).  `exec i`
is the outcome of executing the request's protocol on attempt `i`
(`.error` = any exception).  Success `break`s with the protocol's reply; a
first failure runs `_recover_serial` once, sleeps and retries; a failure on
the retry delivers the degraded reply and `break`s — the loop bound admits
no third attempt. -/
def runAttempts (exec : Nat → Except Unit BridgeReply) (cmd : CmdKind) : WorkerRun :=
  match exec 0 with
  | .ok r => ⟨1, 0, r⟩
  | .error _ =>
    match exec 1 with
    | .ok r => ⟨2, 1, r⟩
    | .error _ => ⟨2, 1, degradedReply cmd⟩

/-- A command dequeued by the bridge worker: either the `"__STOP__"`
sentinel that `close()` enqueues (src/gateway/bridge.py:223) or one of the
six request kinds. -/
inductive QueuedCmd where
  | stopSentinel
  | cmd (k : CmdKind)
  deriving DecidableEq

/-- Outcome of one iteration of `_serial_worker`'s `while self._running:`
loop: the loop exits (`break` or a cleared running flag), or it continues —
having delivered a reply when a request was dequeued. -/
inductive SerialIter where
  | exitLoop
  | continued (delivered : Option BridgeReply)
  | raised (e : PyErr)
  deriving DecidableEq

/-- One iteration of the `while self._running:` loop of
`ArduinoBridge._serial_worker` (src/gateway/bridge.py:239-308).  `running`
is `self._running` at the loop head; `got` is the outcome of
`self._cmd_q.get(timeout=0.5)`, with `.error` modelling `queue.Empty` or
any other get failure — both `except` arms `continue`; `exec i` is the
outcome of executing the dequeued request's protocol on attempt `i`,
handled by the `for attempt in range(2)` block embedded as `runAttempts`.
The warm-up sleep and drain and the inter-command gap sleep are wrapped in
`try`/`except` or cannot raise, and the retry block catches every
execution exception, so no exception escapes an iteration (`.raised` is
never produced): the worker leaves its loop only on the `"__STOP__"`
sentinel or a cleared running flag. -/
def serialWorkerIter (running : Bool) (got : Except Unit QueuedCmd)
    (exec : Nat → Except Unit BridgeReply) : SerialIter :=
  if running then
    match got with
    | .error _ => .continued none
    | .ok .stopSentinel => .exitLoop
    | .ok (.cmd k) => .continued (some (runAttempts exec k).reply)
  else .exitLoop

/-- `ArduinoBridge.ping` (src/gateway/bridge.py:168-174): `enq` is the
outcome of `self._cmd_q.put(..., timeout=1.0)` (`.error` = `queue.Full`
after saturation), `got` the outcome of `resp_q.get(timeout=timeout)`
(`.error` = `queue.Empty` on timeout).  The `except Exception` arm turns
either failure into `False`; nothing propagates to the caller. -/
def pingOp (enq : Except Unit Unit) (got : Except Unit Bool) : Bool :=
  match enq with
  | .error _ => false
  | .ok _ =>
    match got with
    | .ok b => b
    | .error _ => false

/-- `ArduinoBridge.get_gps` (src/gateway/bridge.py:176-182): degraded value
`None`. -/
def getGpsOp (enq : Except Unit Unit) (got : Except Unit (Option (List (String × Int)))) :
    Option (List (String × Int)) :=
  match enq with
  | .error _ => none
  | .ok _ =>
    match got with
    | .ok v => v
    | .error _ => none

/-- `ArduinoBridge.publish_lines` (src/gateway/bridge.py:184-190): degraded
value `False`. -/
def publishLinesOp (enq : Except Unit Unit) (got : Except Unit Bool) : Bool :=
  match enq with
  | .error _ => false
  | .ok _ =>
    match got with
    | .ok b => b
    | .error _ => false

/-- `ArduinoBridge.send_at` (src/gateway/bridge.py:192-198): degraded value
the empty string. -/
def sendAtOp (enq : Except Unit Unit) (got : Except Unit String) : String :=
  match enq with
  | .error _ => ""
  | .ok _ =>
    match got with
    | .ok s => s
    | .error _ => ""

/-- `ArduinoBridge.send_direct_command` (src/gateway/bridge.py:200-206):
degraded value the empty string. -/
def sendDirectCommandOp (enq : Except Unit Unit) (got : Except Unit String) : String :=
  match enq with
  | .error _ => ""
  | .ok _ =>
    match got with
    | .ok s => s
    | .error _ => ""

/-- `ArduinoBridge.send_health_command` (src/gateway/bridge.py:208-215):
degraded value the empty string. -/
def sendHealthCommandOp (enq : Except Unit Unit) (got : Except Unit String) : String :=
  match enq with
  | .error _ => ""
  | .ok _ =>
    match got with
    | .ok s => s
    | .error _ => ""

/- ------------------------------------------------------------------
C8: the publish protocol (`ArduinoBridge._do_publish_sync`,
src/gateway/bridge.py:397-411)
------------------------------------------------------------------- -/

/-- An operation on the serial link: a `_write_line`, a `time.sleep` (in
hundredths of a second), or a read of any kind (`_readline_until` /
`_expect`). -/
inductive SerEv where
  | wr (line : String)
  | pauseHundredths (n : Nat)
  | readLine
  deriving DecidableEq

/-- `ArduinoBridge._do_publish_sync` (src/gateway/bridge.py:397-411) as the
trace of serial operations it performs together with its return value:
five `_write_line` calls separated by 0.03 s / 0.05 s sleeps, no read of
any kind, and an unconditional `True`.  The `wait_ok` argument of the
source is accepted and ignored, as there. -/
def doPublishSync (topic payload : String) (waitOk : Nat) : List SerEv × Bool :=
  let _ := waitOk
  ([.wr "<<<TOPIC>>>", .pauseHundredths 3, .wr topic, .pauseHundredths 5,
    .wr "<<<PAYLOAD>>>", .pauseHundredths 3, .wr payload, .pauseHundredths 5,
    .wr "<<<END>>>"], true)

/-- The lines written on the serial link by a trace, in order. -/
def writesOf (tr : List SerEv) : List String :=
  tr.filterMap fun e =>
    match e with
    | .wr s => some s
    | _ => none

/-- The read operations of a trace. -/
def readsOf (tr : List SerEv) : List SerEv :=
  tr.filter fun e =>
    match e with
    | .readLine => true
    | _ => false

/- ------------------------------------------------------------------
C9: caller-side versus internal timeouts (src/gateway/bridge.py)
------------------------------------------------------------------- -/

/-- Default caller timeout of `ArduinoBridge.ping`
(`timeout: float = 2.0`, src/gateway/bridge.py:168), spent in
`resp_q.get(timeout=timeout)`. -/
def pingCallerTimeoutS : ℚ := 2

/-- Internal timeout of `_do_ping`: `self._expect([...], timeout_s=2.0)`
(src/gateway/bridge.py:315). -/
def doPingTimeoutS : ℚ := 2

/-- Default caller timeout of `ArduinoBridge.get_gps`
(`timeout: float = 4.0`, src/gateway/bridge.py:176). -/
def gpsCallerTimeoutS : ℚ := 4

/-- Internal deadline of `_do_gps`: `end = time.time() + 4.0`
(src/gateway/bridge.py:323). -/
def doGpsDeadlineS : ℚ := 4

/-- Default `read_timeout` of `ArduinoBridge.send_at`
(src/gateway/bridge.py:192). -/
def atDefaultReadTimeoutS : ℚ := 12

/-- Caller timeout of `send_at`: `resp_q.get(timeout=read_timeout + 2.0)`
(src/gateway/bridge.py:196). -/
def atCallerTimeoutS : ℚ := atDefaultReadTimeoutS + 2

/-- `AT_MIN_TIMEOUT_S = 5.0` (src/gateway/bridge.py:45). -/
def atMinTimeoutS : ℚ := 5

/-- Prompt wait of `_do_at`: `self._expect([...], timeout_s=1.2)`
(src/gateway/bridge.py:343). -/
def doAtPromptTimeoutS : ℚ := 12 / 10

/-- Reply deadline of `_do_at`:
`end = time.time() + max(self.AT_MIN_TIMEOUT_S, read_timeout)`
(src/gateway/bridge.py:346), at the default `read_timeout`. -/
def doAtReadDeadlineS : ℚ := max atMinTimeoutS atDefaultReadTimeoutS

/-- Default `read_timeout` of `ArduinoBridge.send_direct_command`
(src/gateway/bridge.py:200). -/
def directDefaultReadTimeoutS : ℚ := 10

/-- Caller timeout of `send_direct_command`:
`resp_q.get(timeout=read_timeout + 2.0)` (src/gateway/bridge.py:204). -/
def directCallerTimeoutS : ℚ := directDefaultReadTimeoutS + 2

/-- Reply deadline of `_do_direct_command`:
`end = time.time() + max(8.0, read_timeout)` (src/gateway/bridge.py:363). -/
def doDirectReadDeadlineS : ℚ := max 8 directDefaultReadTimeoutS

/-- Default `read_timeout` of `ArduinoBridge.send_health_command`
(src/gateway/bridge.py:208). -/
def healthDefaultReadTimeoutS : ℚ := 10

/-- Caller timeout of `send_health_command`:
`resp_q.get(timeout=read_timeout + 2.0)` (src/gateway/bridge.py:213). -/
def healthCallerTimeoutS : ℚ := healthDefaultReadTimeoutS + 2

/-- Internal time of `_do_health_command`: the `time.sleep(0.05)` plus the
reply deadline `max(8.0, read_timeout)` (src/gateway/bridge.py:380-383). -/
def doHealthInternalS : ℚ := 5 / 100 + max 8 healthDefaultReadTimeoutS

/-- Default `wait_ok` of `ArduinoBridge.publish_lines`
(src/gateway/bridge.py:184). -/
def publishDefaultWaitOkS : ℚ := 30

/-- Caller timeout of `publish_lines`:
`resp_q.get(timeout=wait_ok + 5.0)` (src/gateway/bridge.py:188). -/
def publishCallerTimeoutS : ℚ := publishDefaultWaitOkS + 5

/-- Internal time of `_do_publish_sync`: the four sleeps
0.03 + 0.05 + 0.03 + 0.05 (src/gateway/bridge.py:397-411); it performs no
reads. -/
def doPublishInternalS : ℚ := 3 / 100 + 5 / 100 + 3 / 100 + 5 / 100

/- ==================================================================
Theorems
================================================================== -/

/-- Shared lemma for C1/C2: starting from any successfully parsed value,
the record-building code of `_tx_worker` always raises — `TypeError` when
the parsed value is not a dict or when the `MQTTQueueItem(...)` call is
reached (the dataclass has no `gas` field and misses `sensor_type` /
`sensor_numeric_id`), `KeyError` when a subscript is missing — and the
exception is never the caught `json.JSONDecodeError`. -/
lemma txBuildRecords_errors (fm : List (String × String)) (sensorId : String)
    (obj0 : PyVal) (tsNow : Nat) :
    ∃ e, txBuildRecords fm sensorId obj0 tsNow = .error e ∧ e ≠ PyErr.jsonDecodeError := by
  unfold txBuildRecords
  generalize hobj : (if fm ≠ [] then
      match obj0 with
      | .dict kvs => PyVal.dict (renameKeys fm kvs)
      | v => v
    else obj0) = obj
  clear hobj
  rcases obj with v | kvs
  · exact ⟨.typeError, rfl, by simp⟩
  · simp only [pySubscript]
    rcases h1 : kvs.find? (fun kv => kv.1 = "gas") with _ | kv1
    · exact ⟨.keyError "gas", by simp [bind, Except.bind, h1], by simp⟩
    rcases h2 : kvs.find? (fun kv => kv.1 = "temp") with _ | kv2
    · exact ⟨.keyError "temp", by simp [bind, Except.bind, h1, h2], by simp⟩
    rcases h3 : kvs.find? (fun kv => kv.1 = "hum") with _ | kv3
    · exact ⟨.keyError "hum", by simp [bind, Except.bind, h1, h2, h3], by simp⟩
    rcases h4 : kvs.find? (fun kv => kv.1 = "pres") with _ | kv4
    · exact ⟨.keyError "pres", by simp [bind, Except.bind, h1, h2, h3, h4], by simp⟩
    refine ⟨.typeError, ?_, by simp⟩
    simp [bind, Except.bind, h1, h2, h3, h4, mkDataclass, mqttQueueItemFields]

/-- C1 (code bug): contrary to the claim, a dequeued line that parses
successfully as a JSON object never results in records being pushed onto
the Telemetry and Persistence queues.  For every parsed value the
record-building path of `_tx_worker` raises an exception other than the
caught `json.JSONDecodeError` — the `MQTTQueueItem(...)` call passes the
keyword `gas`, which src/gateway/models.py does not declare, and omits the
required `sensor_type` / `sensor_numeric_id`, a `TypeError` — so an
iteration on a successfully parsed line never reaches `put_nowait`: it
either ends the thread (`.raised`) or, were the error a decode error,
would only log. -/
theorem c1_decoded_record_push_impossible :
    (∀ (fm : List (String × String)) (sensorId : String) (obj0 : PyVal) (tsNow : Nat),
      ∃ e, txBuildRecords fm sensorId obj0 tsNow = .error e ∧
        (e = PyErr.typeError ∨ ∃ k, e = PyErr.keyError k)) ∧
    (∀ (fm : List (String × String)) (sensorId : String) (ts tsNow : Nat) (line : String)
      (loads : String → Except PyErr PyVal),
      txWorkerIter fm sensorId false (some (ts, line)) loads tsNow = .looped none none ∨
      txWorkerIter fm sensorId false (some (ts, line)) loads tsNow = .exitLoop ∨
      ∃ e, txWorkerIter fm sensorId false (some (ts, line)) loads tsNow = .raised e) := by
  constructor
  · intro fm sensorId obj0 tsNow
    obtain ⟨e, he, hne⟩ := txBuildRecords_errors fm sensorId obj0 tsNow
    refine ⟨e, he, ?_⟩
    cases e with
    | typeError => exact Or.inl rfl
    | keyError k => exact Or.inr ⟨k, rfl⟩
    | jsonDecodeError => exact absurd rfl hne
  · intro fm sensorId ts tsNow line loads
    unfold txWorkerIter
    simp only [Bool.false_eq_true, if_false]
    by_cases hline : line = "__STOP__"
    · simp [hline]
    · simp only [hline, if_false]
      rcases hl : loads line with e | v
      · cases e <;> simp [bind, Except.bind, hl]
      · obtain ⟨e, he, hne⟩ := txBuildRecords_errors fm sensorId v tsNow
        cases e <;> simp [bind, Except.bind, hl, he] at hne ⊢

/-- C2 counterexample: an iteration of the decode task on a dequeued line
(stop never requested) whose parse succeeds raises an uncaught `TypeError`
— the loop does not continue, the decode thread terminates, refuting
"for every unexpected/unclassified exception raised inside a device
worker's loop body, the exception is caught and logged and the loop
continues". -/
theorem c2_decode_task_crash_counterexample :
    txWorkerIter [] "amb1" false (some (0, "x"))
      (fun _ => .ok (PyVal.dict
        [("gas", .num 1), ("temp", .num 2), ("hum", .num 3), ("pres", .num 4)])) 5
      = .raised .typeError := by
  decide

/-- C2 amended: the device worker's `run` loop and the bridge worker never
terminate except on an explicit stop request, and no exception escapes
either loop — `run`'s catch-all arms swallow everything, and a bridge
worker iteration never raises, exits only when the `"__STOP__"` sentinel
is dequeued (while the running flag is set), and continues after every
dequeued request having delivered the reply of the retry block.  The
dedicated decode task, however, survives only `json.JSONDecodeError` — a
parse failure is logged and the loop continues, while an iteration on any
successfully parsed line raises an uncaught exception and terminates the
decode task. -/
theorem c2_loop_survival_amended :
    (∀ (s s2 : Bool) (r : Except PyErr Unit) (e : PyErr), runLoopIter s r s2 ≠ .raised e) ∧
    (∀ (running : Bool) (got : Except Unit QueuedCmd)
      (exec : Nat → Except Unit BridgeReply) (e : PyErr),
      serialWorkerIter running got exec ≠ .raised e) ∧
    (∀ (got : Except Unit QueuedCmd) (exec : Nat → Except Unit BridgeReply),
      serialWorkerIter true got exec = .exitLoop → got = .ok QueuedCmd.stopSentinel) ∧
    (∀ (exec : Nat → Except Unit BridgeReply) (k : CmdKind),
      serialWorkerIter true (.ok (.cmd k)) exec =
        .continued (some (runAttempts exec k).reply)) ∧
    (∀ (fm : List (String × String)) (sensorId : String) (ts tsNow : Nat) (line : String)
      (loads : String → Except PyErr PyVal),
      line ≠ "__STOP__" → loads line = .error .jsonDecodeError →
      txWorkerIter fm sensorId false (some (ts, line)) loads tsNow = .looped none none) ∧
    (∀ (fm : List (String × String)) (sensorId : String) (ts tsNow : Nat) (line : String)
      (loads : String → Except PyErr PyVal) (v : PyVal),
      line ≠ "__STOP__" → loads line = .ok v →
      ∃ e, txWorkerIter fm sensorId false (some (ts, line)) loads tsNow = .raised e ∧
        e ≠ PyErr.jsonDecodeError) := by
  refine ⟨fun s s2 r e => ?_, fun running got exec e => ?_, fun got exec hexit => ?_,
    fun exec k => rfl, fun fm sensorId ts tsNow line loads hline hl => ?_,
    fun fm sensorId ts tsNow line loads v hline hl => ?_⟩
  · unfold runLoopIter
    rcases s with _ | _ <;> rcases r with u | u <;> rcases s2 with _ | _ <;> simp
  · unfold serialWorkerIter
    rcases running with _ | _
    · simp
    · rcases got with u | q
      · simp
      · rcases q with _ | k <;> simp
  · unfold serialWorkerIter at hexit
    rcases got with u | q
    · simp at hexit
    · rcases q with _ | k
      · rfl
      · simp at hexit
  · unfold txWorkerIter
    simp [hline, bind, Except.bind, hl]
  · obtain ⟨e, he, hne⟩ := txBuildRecords_errors fm sensorId v tsNow
    refine ⟨e, ?_, hne⟩
    unfold txWorkerIter
    cases e <;> simp_all [bind, Except.bind]

/-- C2 witness: the amended statement instantiated — a run-loop iteration
with a failed body retries instead of raising; a bridge worker iteration
on a failing request neither raises nor exits, and it exits on the
dequeued stop sentinel; a decode-task iteration on an unparseable line
continues; one on a parsed line raises. -/
theorem c2_loop_survival_amended_witness :
    runLoopIter false (.error .typeError) false ≠ .raised PyErr.typeError ∧
    serialWorkerIter true (.ok (.cmd CmdKind.PING)) (fun _ => .error ())
      ≠ .raised PyErr.typeError ∧
    (Except.ok QueuedCmd.stopSentinel : Except Unit QueuedCmd)
      = .ok QueuedCmd.stopSentinel ∧
    serialWorkerIter true (.ok (.cmd CmdKind.PING)) (fun _ => .error ())
      = .continued (some (runAttempts (fun _ => .error ()) CmdKind.PING).reply) ∧
    txWorkerIter [] "amb1" false (some (0, "x")) (fun _ => .error .jsonDecodeError) 5
      = .looped none none ∧
    ∃ e, txWorkerIter [] "amb1" false (some (0, "y"))
        (fun _ => .ok (PyVal.leaf (.num 3))) 5 = .raised e ∧ e ≠ PyErr.jsonDecodeError :=
  ⟨c2_loop_survival_amended.1 false false (.error .typeError) PyErr.typeError,
   c2_loop_survival_amended.2.1 true (.ok (.cmd CmdKind.PING)) (fun _ => .error ())
     PyErr.typeError,
   c2_loop_survival_amended.2.2.1 (.ok QueuedCmd.stopSentinel) (fun _ => .error ()) rfl,
   c2_loop_survival_amended.2.2.2.1 (fun _ => .error ()) CmdKind.PING,
   c2_loop_survival_amended.2.2.2.2.1 [] "amb1" 0 5 "x" _ (by decide) rfl,
   c2_loop_survival_amended.2.2.2.2.2 [] "amb1" 0 5 "y" _ _ (by decide) rfl⟩

/-- C10: a dequeued item whose line is the literal `"__STOP__"` makes the
decode task `break` immediately, with the stop flag never consulted; and
the notification path enqueues any line verbatim (the new item always ends
up last in the queue), so a device-originated `"__STOP__"` data line —
which the line reassembler delivers intact — also terminates decoding. -/
theorem c10_stop_sentinel_from_data :
    (∀ (fm : List (String × String)) (sensorId : String) (ts tsNow : Nat)
      (loads : String → Except PyErr PyVal),
      txWorkerIter fm sensorId false (some (ts, "__STOP__")) loads tsNow = .exitLoop) ∧
    (∀ (q : List (Nat × String)) (ts : Nat),
      (enqueueLine q (ts, "__STOP__")).getLast? = some (ts, "__STOP__")) ∧
    (handleNotification ⟨[]⟩ ("__STOP__\n".data)).1 = ["__STOP__".data] := by
  refine ⟨fun fm sensorId ts tsNow loads => ?_, fun q ts => ?_, by decide⟩
  · unfold txWorkerIter
    simp
  · unfold enqueueLine
    split <;> simp

/-- C5 support: folding `_enqueue_line` from an empty queue retains the
sliding window of the most recent `qMaxsize` items. -/
lemma foldl_enqueueLine_window (xs : List (Nat × String)) :
    xs.foldl enqueueLine [] = xs.drop (xs.length - qMaxsize) := by
  induction xs using List.reverseRecOn with
  | nil => simp
  | append_singleton xs x ih =>
    have hq : qMaxsize = 20 := rfl
    rw [List.foldl_append, List.foldl_cons, List.foldl_nil, ih]
    unfold enqueueLine
    rcases Nat.lt_or_ge xs.length qMaxsize with h | h
    · have h0 : xs.length - qMaxsize = 0 := by omega
      have h1 : (xs ++ [x]).length - qMaxsize = 0 := by
        rw [List.length_append, List.length_singleton]
        omega
      rw [h0, List.drop_zero, h1, List.drop_zero, if_pos h]
    · have hlen : (xs.drop (xs.length - qMaxsize)).length = qMaxsize := by
        rw [List.length_drop]
        omega
      rw [if_neg (by rw [hlen]; exact lt_irrefl _), List.drop_drop]
      have h2 : xs.length - qMaxsize + 1 = (xs ++ [x]).length - qMaxsize := by
        rw [List.length_append, List.length_singleton]
        omega
      rw [h2, List.drop_append_of_le_length
        (by rw [List.length_append, List.length_singleton]; omega)]

/-- C5: with capacity `qMaxsize = 20` and `qMaxsize + 1` pushes through
`_enqueue_line` with no consumer draining, the retained items are exactly
the last `qMaxsize` pushed, in push order (the first push is the only one
dropped); the embedded operation is a total function of the queue — the
source path is `put_nowait`/`get_nowait` only and never sleeps or
blocks. -/
theorem c5_decode_queue_overflow (xs : List (Nat × String))
    (h : xs.length = qMaxsize + 1) :
    xs.foldl enqueueLine [] = xs.drop 1 := by
  rw [foldl_enqueueLine_window, h]
  simp [qMaxsize]

/-- C5 witness: a concrete burst of 21 pushes keeps items 1..20. -/
theorem c5_decode_queue_overflow_witness :
    c5input.length = qMaxsize + 1 ∧ c5input.foldl enqueueLine [] = c5input.drop 1 :=
  ⟨by decide, c5_decode_queue_overflow c5input (by decide)⟩

/-- C6: a request whose first protocol execution raises triggers exactly
one recovery and exactly one retry; a successful retry's reply is
delivered, a second failure delivers the kind-specific degraded reply —
and in either case exactly two attempts were made, never a third. -/
theorem c6_retry_policy (exec : Nat → Except Unit BridgeReply) (cmd : CmdKind)
    (h : exec 0 = .error ()) :
    (runAttempts exec cmd).recoveries = 1 ∧
    (runAttempts exec cmd).attemptsMade = 2 ∧
    (∀ r, exec 1 = .ok r → (runAttempts exec cmd).reply = r) ∧
    (exec 1 = .error () → (runAttempts exec cmd).reply = degradedReply cmd) := by
  unfold runAttempts
  rw [h]
  rcases h2 : exec 1 with u | r <;> simp_all

/-- C6 witness: a request failing on both attempts gets one recovery, two
attempts, and the degraded reply. -/
theorem c6_retry_policy_witness :
    (runAttempts (fun _ => .error ()) CmdKind.PING).recoveries = 1 ∧
    (runAttempts (fun _ => .error ()) CmdKind.PING).attemptsMade = 2 ∧
    (runAttempts (fun _ => .error ()) CmdKind.PING).reply = degradedReply CmdKind.PING := by
  obtain ⟨h1, h2, _, h4⟩ := c6_retry_policy (fun _ => .error ()) CmdKind.PING rfl
  exact ⟨h1, h2, h4 rfl⟩

/-- C7: every public bridge operation is a total function of the outcomes
of its two fallible steps (no exception reaches the caller), and when the
request cannot be enqueued, or the reply does not arrive before the
caller's timeout, it returns its documented degraded value — ping and
publish_lines `false`, get_gps `none`, send_at / send_direct_command /
send_health_command the empty string. -/
theorem c7_public_api_degraded_defaults :
    (∀ g, pingOp (.error ()) g = false) ∧
    (∀ e, pingOp e (.error ()) = false) ∧
    (∀ g, getGpsOp (.error ()) g = none) ∧
    (∀ e, getGpsOp e (.error ()) = none) ∧
    (∀ g, publishLinesOp (.error ()) g = false) ∧
    (∀ e, publishLinesOp e (.error ()) = false) ∧
    (∀ g, sendAtOp (.error ()) g = "") ∧
    (∀ e, sendAtOp e (.error ()) = "") ∧
    (∀ g, sendDirectCommandOp (.error ()) g = "") ∧
    (∀ e, sendDirectCommandOp e (.error ()) = "") ∧
    (∀ g, sendHealthCommandOp (.error ()) g = "") ∧
    (∀ e, sendHealthCommandOp e (.error ()) = "") := by
  refine ⟨fun g => rfl, fun e => ?_, fun g => rfl, fun e => ?_, fun g => rfl, fun e => ?_,
    fun g => rfl, fun e => ?_, fun g => rfl, fun e => ?_, fun g => rfl, fun e => ?_⟩ <;>
    (rcases e with u | u <;> rfl)

/-- C8: for every publish request the bridge writes exactly the
topic-marker, topic, payload-marker, payload and end-marker lines in that
order with brief pauses, performs no read whatsoever after (or before) the
end marker, and reports success unconditionally once the writes are
done. -/
theorem c8_publish_fire_and_forget (topic payload : String) (waitOk : Nat) :
    writesOf (doPublishSync topic payload waitOk).1 =
      ["<<<TOPIC>>>", topic, "<<<PAYLOAD>>>", payload, "<<<END>>>"] ∧
    (doPublishSync topic payload waitOk).2 = true ∧
    readsOf (doPublishSync topic payload waitOk).1 = [] :=
  ⟨rfl, rfl, rfl⟩

/-- C9 counterexample: with default parameters the claim's strict
inequality fails exactly where it insists it must hold — the ping caller
blocks on the reply slot for 2.0 s while `_do_ping`'s internal expect
timeout is also 2.0 s, and the get_gps caller blocks for 4.0 s while
`_do_gps`'s internal deadline is also 4.0 s: equal, not strictly
greater. -/
theorem c9_ping_gps_no_margin_counterexample :
    pingCallerTimeoutS = doPingTimeoutS ∧ ¬ doPingTimeoutS < pingCallerTimeoutS ∧
    gpsCallerTimeoutS = doGpsDeadlineS ∧ ¬ doGpsDeadlineS < gpsCallerTimeoutS :=
  ⟨rfl, lt_irrefl _, rfl, lt_irrefl _⟩

/-- C9 amended: for the passthrough, health and publish operations the
default caller-side timeout is strictly greater than the operation's
internal protocol time (prompt wait plus read deadline for AT, read
deadline for direct, sleep plus read deadline for health, the four sleeps
for publish); for probe/ping and locate/GPS the default caller timeout
merely equals the internal timeout — there is no strict margin. -/
theorem c9_timeout_margins_amended :
    doAtPromptTimeoutS + doAtReadDeadlineS < atCallerTimeoutS ∧
    doDirectReadDeadlineS < directCallerTimeoutS ∧
    doHealthInternalS < healthCallerTimeoutS ∧
    doPublishInternalS < publishCallerTimeoutS ∧
    pingCallerTimeoutS = doPingTimeoutS ∧
    gpsCallerTimeoutS = doGpsDeadlineS := by
  refine ⟨?_, ?_, ?_, ?_, rfl, rfl⟩ <;>
    norm_num [doAtPromptTimeoutS, doAtReadDeadlineS, atCallerTimeoutS, atMinTimeoutS,
      atDefaultReadTimeoutS, doDirectReadDeadlineS, directCallerTimeoutS,
      directDefaultReadTimeoutS, doHealthInternalS, healthCallerTimeoutS,
      healthDefaultReadTimeoutS, doPublishInternalS, publishCallerTimeoutS,
      publishDefaultWaitOkS, max_def]

/-- Unfolding `splitNl` on a buffer starting with the newline. -/
lemma splitNl_cons_nl (cs : List Char) :
    splitNl ('\n' :: cs) = ([] :: (splitNl cs).1, (splitNl cs).2) := rfl

/-- Unfolding `splitNl` on a buffer starting with any other character. -/
lemma splitNl_cons_other (c : Char) (cs : List Char) (h : ¬ c = '\n') :
    splitNl (c :: cs) =
      match splitNl cs with
      | ([], r) => ([], c :: r)
      | (l :: ls, r) => ((c :: l) :: ls, r) := by
  simp only [splitNl]
  rw [if_neg h]

/-- The residue `splitNl` leaves in the buffer contains no newline: the
loop runs until `find` fails. -/
lemma splitNl_residue_no_nl (l : List Char) : '\n' ∉ (splitNl l).2 := by
  induction l with
  | nil => simp [splitNl]
  | cons c cs ih =>
    by_cases h : c = '\n'
    · subst h
      rw [splitNl_cons_nl]
      exact ih
    · rw [splitNl_cons_other c cs h]
      rcases h2 : splitNl cs with ⟨ls, r⟩
      rw [h2] at ih
      rcases ls with _ | ⟨l0, ls2⟩
      · simp only [List.mem_cons, not_or]
        exact ⟨fun e => h e.symm, ih⟩
      · exact ih

/-- A newline-free buffer splits into no lines and itself as residue. -/
lemma splitNl_eq_of_no_nl (l : List Char) (h : '\n' ∉ l) : splitNl l = ([], l) := by
  induction l with
  | nil => rfl
  | cons c cs ih =>
    simp only [List.mem_cons, not_or] at h
    rw [splitNl_cons_other c cs (fun e => h.1 e.symm), ih h.2]

/-- How `splitNl` acts on an appended buffer: the lines of `a` come first,
the residue of `a` is glued onto the first line of `b` (if any), and the
final residue is that of `b` — prefixed by `a`'s residue when `b`
contributes no complete line. -/
lemma splitNl_append (a b : List Char) :
    splitNl (a ++ b) =
      ((splitNl a).1 ++ consFirst (splitNl a).2 (splitNl b).1,
       if (splitNl b).1 = [] then (splitNl a).2 ++ (splitNl b).2 else (splitNl b).2) := by
  induction a with
  | nil =>
    rcases hb : splitNl b with ⟨lb, rb⟩
    rcases lb with _ | ⟨m0, ms⟩ <;> simp [splitNl, consFirst, hb]
  | cons c a2 ih =>
    by_cases h : c = '\n'
    · subst h
      rw [List.cons_append, splitNl_cons_nl, splitNl_cons_nl, ih]
      simp
    · rw [List.cons_append, splitNl_cons_other c _ h, splitNl_cons_other c _ h, ih]
      rcases ha : splitNl a2 with ⟨la, ra⟩
      rcases hb : splitNl b with ⟨lb, rb⟩
      rcases la with _ | ⟨l0, ls⟩ <;> rcases lb with _ | ⟨m0, ms⟩ <;>
        simp [consFirst]

/-- Processing chunks from a newline-free buffered residue equals one-shot
processing of the residue glued to the concatenation of the chunks. -/
lemma runChunksFrom_eq (chunks : List (List Char)) :
    ∀ (st : List Char) (acc : List (List Char)), '\n' ∉ st →
      runChunksFrom (acc, ⟨st⟩) chunks =
        (acc ++ ((splitNl (st ++ chunks.flatten)).1.map pyStrip).filter (fun l => l ≠ []),
         ⟨(splitNl (st ++ chunks.flatten)).2⟩) := by
  induction chunks with
  | nil =>
    intro st acc h
    simp [runChunksFrom, splitNl_eq_of_no_nl st h]
  | cons d rest ih =>
    intro st acc h
    have hstep : runChunksFrom (acc, ⟨st⟩) (d :: rest) =
        runChunksFrom
          (acc ++ ((splitNl (st ++ d)).1.map pyStrip).filter (fun l => l ≠ []),
           ⟨(splitNl (st ++ d)).2⟩) rest := rfl
    rw [hstep, ih _ _ (splitNl_residue_no_nl (st ++ d))]
    have hsplit : st ++ (d :: rest).flatten = (st ++ d) ++ rest.flatten := by
      simp
    rw [hsplit, splitNl_append (st ++ d) rest.flatten,
      splitNl_append ((splitNl (st ++ d)).2) rest.flatten,
      splitNl_eq_of_no_nl _ (splitNl_residue_no_nl (st ++ d))]
    simp [List.filter_append, List.append_assoc]

/-- C4 counterexample: on the single chunk `['a', ' ', '\n']` the delegate
emits the line `"a"` — `strip()` removes the trailing blank — while
splitting the concatenation on the newline terminator with (only) the
terminator stripped yields `"a "`; the claimed equality fails. -/
theorem c4_terminator_strip_counterexample :
    (runChunks [['a', ' ', '\n']]).1 = [['a']] ∧
    ((splitNl (List.flatten [['a', ' ', '\n']])).1).filter (fun l => l ≠ []) = [['a', ' ']] ∧
    (runChunks [['a', ' ', '\n']]).1 ≠
      ((splitNl (List.flatten [['a', ' ', '\n']])).1).filter (fun l => l ≠ []) := by
  refine ⟨by decide, by decide, by decide⟩

/-- C4 amended: for every sequence of chunk deliveries — wherever the
boundaries fall, including a terminator split across two chunks — the
lines passed to the callback are exactly the newline-terminated segments
of the concatenation of all chunks, each stripped of surrounding
whitespace (Python `str.strip`, not just the terminator), with lines empty
after stripping suppressed; and the delegate retains exactly the residue
after the last terminator. -/
theorem c4_reassembly_chunk_invariance (chunks : List (List Char)) :
    (runChunks chunks).1 =
      ((splitNl chunks.flatten).1.map pyStrip).filter (fun l => l ≠ []) ∧
    (runChunks chunks).2.buf = (splitNl chunks.flatten).2 := by
  have h := runChunksFrom_eq chunks [] [] (by simp)
  have hrc : runChunks chunks = runChunksFrom ([], ⟨[]⟩) chunks := rfl
  rw [hrc, h]
  simp

/-- C3 counterexample: streamed lines `"{bad}"` then `"{"lat":1,"lon":2}"`
— after the first line a brace span exists but fails to parse, and
`_do_gps` returns `None` at once instead of continuing to read: the valid
object on the very next line is never seen, while the spec-worded loop
(parse failure keeps reading) returns it.  This refutes "a failed parse
attempt does not terminate the read loop (only deadline expiry does)". -/
theorem c3_failed_parse_aborts_counterexample :
    doGps parseLocJson [c3line1, c3line2] = none ∧
    doGpsSpecContinue parseLocJson [c3line1, c3line2] = some [("lat", 1), ("lon", 2)] := by
  refine ⟨by decide, by decide⟩

/-- C3 amended: the locate loop accumulates incoming lines until its
deadline and after each new line extracts the last-opened-to-last-closed
brace span of the concatenation so far; the first time such a span exists,
the single parse attempt decides the request — a successful parse is
returned immediately, a failed parse attempt immediately yields absent
(the read loop is not resumed) — and running out the deadline with no span
ever found yields absent.  Formally: `_do_gps` equals the collapse of its
first parse attempt. -/
theorem c3_gps_first_attempt_decides {J : Type} (loads : List Char → Option J)
    (lines acc : List (List Char)) :
    doGpsAux loads lines acc = (firstGpsAttempt loads lines acc).join := by
  induction lines generalizing acc with
  | nil => rfl
  | cons line rest ih =>
    unfold doGpsAux firstGpsAttempt
    by_cases hline : line = []
    · rw [if_pos hline, if_pos hline]
      exact ih acc
    · rw [if_neg hline, if_neg hline]
      rcases hs : gpsSpan (acc ++ [line]) with _ | span
      · exact ih (acc ++ [line])
      · rcases hl : loads span with _ | v <;> simp [Option.join, hl]
